import Mathlib

/-!
# A shallow embedding of the Flux language core (src/lang/flux.js)

The source is a small scripting-language pipeline written in JavaScript:
a regex-driven lexer (`lexer`), a recursive-descent parser (`parser`) and a
tree-walking interpreter (`Interpreter.eval` / `executeFlux`).  This file
translates that pipeline into executable Lean definitions and proves the
specification's claims about it.

Modelling conventions:
* JS numbers are modelled as `ℚ`.  IEEE-754 artefacts (`NaN`, `Infinity`,
  rounding) are outside the model; where a JS operation would produce `NaN`
  or an infinity the model returns the marker value `Value.undefined` and a
  comment records the divergence.  No claim below depends on such a case.
* The mutable interpreter state (`this.env` and the console output produced
  by `print`) is passed explicitly as a `St` value.  A thrown JS exception is
  an `Except.error`; because the JS state survives a throw, evaluation
  returns the state alongside the error.
* Parser and evaluator recursion is expressed with an explicit fuel
  parameter (the JS functions recurse on the heap); the top-level wrappers
  supply a fuel that is amply sufficient, and the general theorems quantify
  over the fuel.
-/

/-! ## Keyword table (flux.js lines 1-15) -/

/-- The reserved-word set of `flux.js` (the `keywords` `Set`), in source
order.  Duplicated entries of the JS literal (`class` appears twice) are
harmless for membership. -/
def keywords : List String :=
  ["if", "else", "elseif", "switch", "case", "default", "while", "for",
   "break", "continue", "return",
   "let", "const", "var", "mutable", "static",
   "function", "fn", "lambda", "async", "await",
   "int", "float", "string", "bool", "object", "array", "enum", "class",
   "try", "catch", "finally", "throw",
   "and", "or", "not", "is", "in", "mod",
   "import", "export", "package", "module", "include",
   "class", "extends", "super", "this", "interface", "abstract",
   "true", "false", "null", "new", "delete"]

/-- `isKeyword(word)` — membership in the reserved-word set. -/
def isKeyword (w : String) : Bool := keywords.contains w

/-! ## Lexer (flux.js lines 38-46)

The JS lexer repeatedly calls `exec` on the global regex

  `/\s*([A-Za-z_]\w*|\d+(\.\d+)?|"[^"]*"|'[^']*'|[+\-*/=();,{}<>]|==|!=|<=|>=|&&|\|\||!)\s*/g`

pushing capture group 1 each time.  `exec` with the `g` flag searches
forward from `lastIndex` for the next position where the pattern matches,
so a character matched by none of the alternatives is silently stepped
over, and the scan simply ends when no further match exists — the JS
function can never throw.  Because no alternative begins with a whitespace
character, the denotation is: skip whitespace; at a non-whitespace
character try the alternatives in the regex's textual order (each greedy);
on success emit the token and continue after it; on failure skip one
character and continue. -/

def isIdentStart (c : Char) : Bool := c.isAlpha || c = '_'

/-- `\w` (ASCII word character). -/
def isWordChar (c : Char) : Bool := c.isAlphanum || c = '_'

/-- The double-quote character. -/
def quoteD : Char := Char.ofNat 34

/-- The single-quote character. -/
def quoteS : Char := Char.ofNat 39

/-- The single-character alternative `[+\-*/=();,{}<>]` of the token regex
(the fifth alternative, placed *before* the two-character operators). -/
def opChars : List Char :=
  ['+', '-', '*', '/', '=', '(', ')', ';', ',', Char.ofNat 123, Char.ofNat 125, '<', '>']

/-- One attempt of the token regex's capture group at the head of the
character stream, alternatives in source order, each greedy.  Returns the
matched token together with the number of characters consumed, or `none`
when no alternative matches here (the `exec` search then steps forward one
character).

The alternatives `==`, `<=` and `>=` of the source regex are listed *after*
the single-character class, whose members include `=`, `<` and `>`; since
regex alternation is ordered, those three two-character alternatives can
never fire — the single-character alternative always wins at a `=`, `<` or
`>`.  They therefore have no branch of their own below.  Likewise, after an
unterminated quoted literal fails its alternative, none of the later
alternatives can match at a quote character, so that case yields `none`. -/
def matchTok : List Char → Option (String × Nat)
  | [] => none
  | c :: cs =>
    if isIdentStart c then
      -- [A-Za-z_]\w*
      let w := cs.takeWhile isWordChar
      some (String.mk (c :: w), 1 + w.length)
    else if c.isDigit then
      -- \d+(\.\d+)?
      let ds := cs.takeWhile Char.isDigit
      match cs.drop ds.length with
      | '.' :: r2 =>
        let fs := r2.takeWhile Char.isDigit
        if fs.isEmpty then some (String.mk (c :: ds), 1 + ds.length)
        else some (String.mk ((c :: ds) ++ '.' :: fs), 1 + ds.length + 1 + fs.length)
      | _ => some (String.mk (c :: ds), 1 + ds.length)
    else if c = quoteD then
      -- "[^"]*"
      let body := cs.takeWhile (fun x => x ≠ quoteD)
      if (cs.drop body.length).head? = some quoteD then
        some (String.mk ((quoteD :: body) ++ [quoteD]), body.length + 2)
      else none
    else if c = quoteS then
      -- '[^']*'
      let body := cs.takeWhile (fun x => x ≠ quoteS)
      if (cs.drop body.length).head? = some quoteS then
        some (String.mk ((quoteS :: body) ++ [quoteS]), body.length + 2)
      else none
    else if opChars.contains c then
      some (String.mk [c], 1)
    else if c = '!' then
      -- `!=` (seventh alternative) before the lone `!` (last alternative)
      match cs with
      | '=' :: _ => some ("!=", 2)
      | _ => some ("!", 1)
    else if c = '&' then
      match cs with
      | '&' :: _ => some ("&&", 2)
      | _ => none
    else if c = '|' then
      match cs with
      | '|' :: _ => some ("||", 2)
      | _ => none
    else none

/-- The scan loop of `lexer`, with explicit fuel.  Every step consumes at
least one character, so fuel equal to the input length is sufficient. -/
def lexTokensF : Nat → List Char → List String
  | 0, _ => []
  | _ + 1, [] => []
  | f + 1, c :: cs =>
    if c.isWhitespace then lexTokensF f cs
    else
      match matchTok (c :: cs) with
      | some (t, k) => t :: lexTokensF f (List.drop k (c :: cs))
      | none => lexTokensF f cs

/-- `lexer(input)` — the token list of a source string. -/
def lexer (s : String) : List String := lexTokensF s.data.length s.data

example : lexer "1+2*3;" = ["1", "+", "2", "*", "3", ";"] := by decide
example : lexer "let x = 1; x();" =
    ["let", "x", "=", "1", ";", "x", "(", ")", ";"] := by decide
example : lexer "a@b" = ["a", "b"] := by decide
example : lexer "a == b" = ["a", "=", "=", "b"] := by decide
example : lexer "a != b" = ["a", "!=", "b"] := by decide

/-! ## Exact numbers

JS numbers are IEEE-754 doubles.  Every literal and every arithmetic result
a claim mentions is exactly representable, so the model computes with exact
rationals, as a numerator/denominator pair; float rounding, `NaN` and the
infinities are outside the model.  The pair type is bespoke so that every
operation is structural and kernel-computable. -/

structure JNum where
  num : Int
  den : Nat
deriving DecidableEq

instance (n : Nat) : OfNat JNum n := ⟨⟨(n : Int), 1⟩⟩

/-- Reduce to lowest terms (the denominator is positive for every value the
interpreter builds, and stays so). -/
def JNum.norm (a : JNum) : JNum :=
  let g := Nat.gcd a.num.natAbs a.den
  if g = 0 then ⟨0, 1⟩
  else ⟨(if a.num < 0 then -1 else 1) * Int.ofNat (a.num.natAbs / g), a.den / g⟩

def JNum.add (a b : JNum) : JNum :=
  JNum.norm ⟨a.num * b.den + b.num * a.den, a.den * b.den⟩

def JNum.sub (a b : JNum) : JNum :=
  JNum.norm ⟨a.num * b.den - b.num * a.den, a.den * b.den⟩

def JNum.mul (a b : JNum) : JNum :=
  JNum.norm ⟨a.num * b.num, a.den * b.den⟩

/-- Division; the caller rules out a zero divisor (where JS produces an
infinity or `NaN`, outside the model). -/
def JNum.div (a b : JNum) : JNum :=
  JNum.norm ⟨(if b.num < 0 then -1 else 1) * (a.num * b.den), a.den * b.num.natAbs⟩

/-- Numeric value equality (JS `===` on numbers), independent of the
representative. -/
def JNum.valEq (a b : JNum) : Bool := a.num * b.den == b.num * a.den

def JNum.isNeg (a : JNum) : Bool := a.num < 0

def JNum.isZero (a : JNum) : Bool := a.num == 0

/-- Whether the value is an integer. -/
def JNum.isInt (a : JNum) : Bool := a.num.natAbs % a.den == 0

/-- Truncation toward zero (JS `ToInteger`, `parseInt` on a number). -/
def JNum.trunc (a : JNum) : Int :=
  (if a.num < 0 then -1 else 1) * Int.ofNat (a.num.natAbs / a.den)

/-- Floor, for `Math.round(x)` = `floor(x + 1/2)`. -/
def JNum.floorI (a : JNum) : Int :=
  if 0 ≤ a.num then Int.ofNat (a.num.natAbs / a.den)
  else -Int.ofNat ((a.num.natAbs + a.den - 1) / a.den)

/-- Integer square root by bounded search (structural, so it computes in
the kernel; the claims only apply it to small perfect squares). -/
def natSqrt (n : Nat) : Nat :=
  ((List.range (n + 1)).filter (fun r => r * r ≤ n)).foldl max 0

/-- `Math.sqrt`, exact on perfect squares (the only inputs any claim uses);
on other inputs JS returns an irrational float, outside the model. -/
def JNum.sqrtJ (a : JNum) : JNum :=
  JNum.norm ⟨Int.ofNat (natSqrt a.num.toNat), natSqrt a.den⟩

def JNum.powNat (a : JNum) (k : Nat) : JNum := JNum.norm ⟨a.num ^ k, a.den ^ k⟩

def JNum.absJ (a : JNum) : JNum := ⟨Int.ofNat a.num.natAbs, a.den⟩

/-- The value of a digit run. -/
def digitsVal (ds : List Char) : Nat :=
  ds.foldl (fun a c => a * 10 + (c.toNat - 48)) 0


/-! ## Syntax trees (the node objects built by `parser`, flux.js lines 47-137)

The parser builds plain JS objects tagged by a `type` field.  `Node` mirrors
those tags; the tag `variable` is a Lean keyword, so its constructor is
named `var`, and the `literal` tag's JS value (`true`/`false`/`null`) is an
`Option Bool` (`none` standing for JS `null`). -/

inductive Node where
  | number (value : JNum)
  | string (value : String)
  | literal (value : Option Bool)
  | var (name : String)
  | call (callee : Node) (arguments : List Node)
  | binary (operator : String) (left right : Node)
  | var_decl (kind name : String) (expr : Node)
  | expr_stmt (expr : Node)
  | keyword (value : String)

/-! ## Parser (flux.js lines 47-137)

The JS parser walks the token array with a cursor `pos`; here each parsing
function takes the remaining token list and returns the parsed node with
the unconsumed suffix, or the thrown error message.  `consume(expected)` at
the end of the token array reads `undefined`; a JS template literal prints
that as the text `undefined`, which the error messages below reproduce. -/

/-- The message of `consume`'s
`Expected "${expected}" but got "${token}"` error. -/
def expectedMsg (expected got : String) : String :=
  "Expected \"" ++ expected ++ "\" but got \"" ++ got ++ "\""

/-- The test `!isNaN(token)` of `parsePrimary`, for the token shapes the
lexer produces: exactly the tokens of shape `\d+(\.\d+)?` coerce to a
non-NaN number.  (JS `isNaN` would also accept strings such as
`"Infinity"` or `"0x1"`, but the lexer never emits those as one token.) -/
def isNumericTok (t : String) : Bool :=
  let ds := t.data.takeWhile Char.isDigit
  decide (ds ≠ []) &&
    (match t.data.drop ds.length with
     | [] => true
     | '.' :: fs => decide (fs ≠ []) && fs.all Char.isDigit
     | _ => false)

/-- `Number(token)` for a token of shape `\d+(\.\d+)?`. -/
def tokToNum (cs : List Char) : JNum :=
  let ds := cs.takeWhile Char.isDigit
  match cs.drop ds.length with
  | '.' :: fs =>
    JNum.norm ⟨Int.ofNat (digitsVal ds * 10 ^ fs.length + digitsVal fs), 10 ^ fs.length⟩
  | _ => ⟨Int.ofNat (digitsVal ds), 1⟩

/-- `token.slice(1, -1)` — strip the first and last character. -/
def strSlice (t : String) : String := String.mk ((t.data.drop 1).dropLast)

/-- `parsePrimary` (flux.js lines 64-85).  The JS guard `if (!token)` is
true both for the end of the token array (`undefined`) and for an empty
string token (falsy); the lexer never emits the latter, but the model keeps
the check.  `parsePrimary` is not recursive. -/
def parsePrimary : List String → Except String (Node × List String)
  | [] => .error "Unexpected end of input"
  | t :: ts =>
    if t = "" then .error "Unexpected end of input"
    else if isNumericTok t then .ok (.number (tokToNum t.data), ts)
    else if t.front = quoteD || t.front = quoteS then .ok (.string (strSlice t), ts)
    else if isKeyword t then
      if t = "true" then .ok (.literal (some true), ts)
      else if t = "false" then .ok (.literal (some false), ts)
      else if t = "null" then .ok (.literal none, ts)
      else .ok (.keyword t, ts)
    else .ok (.var t, ts)

mutual

/-- `parseCall` (flux.js lines 86-105): a primary followed by zero or more
`( … )` argument-list suffixes. -/
def parseCall : Nat → List String → Except String (Node × List String)
  | 0, _ => .error "out of fuel"
  | f + 1, ts =>
    match parsePrimary ts with
    | .ok (e, ts1) => parseCallSuffix f e ts1
    | .error er => .error er

/-- The `while (true)` suffix loop of `parseCall`. -/
def parseCallSuffix : Nat → Node → List String → Except String (Node × List String)
  | 0, _, _ => .error "out of fuel"
  | f + 1, e, ts =>
    match ts with
    | "(" :: ts1 =>
      match ts1 with
      | ")" :: ts2 => parseCallSuffix f (.call e []) ts2
      | _ =>
        match parseArgsLoop f ts1 with
        | .ok (args, ts2) =>
          match ts2 with
          | ")" :: ts3 => parseCallSuffix f (.call e args) ts3
          | tk :: _ => .error (expectedMsg ")" tk)
          | [] => .error (expectedMsg ")" "undefined")
        | .error er => .error er
    | _ => .ok (e, ts)

/-- The `do … while (peek() === "," && consume(","))` argument loop of
`parseCall`. -/
def parseArgsLoop : Nat → List String → Except String (List Node × List String)
  | 0, _ => .error "out of fuel"
  | f + 1, ts =>
    match parseExpression f ts with
    | .ok (e, ts1) =>
      match ts1 with
      | "," :: ts2 =>
        match parseArgsLoop f ts2 with
        | .ok (args, ts3) => .ok (e :: args, ts3)
        | .error er => .error er
      | _ => .ok ([e], ts1)
    | .error er => .error er

/-- `parseExpression` (flux.js lines 106-115): one flat left-associative
tier over `+ - * / == !=`. -/
def parseExpression : Nat → List String → Except String (Node × List String)
  | 0, _ => .error "out of fuel"
  | f + 1, ts =>
    match parseCall f ts with
    | .ok (l, ts1) => parseExprLoop f l ts1
    | .error er => .error er

/-- The operator loop of `parseExpression`. -/
def parseExprLoop : Nat → Node → List String → Except String (Node × List String)
  | 0, _, _ => .error "out of fuel"
  | f + 1, left, ts =>
    match ts with
    | op :: ts1 =>
      if op = "+" || op = "-" || op = "*" || op = "/" || op = "==" || op = "!=" then
        match parseCall f ts1 with
        | .ok (r, ts2) => parseExprLoop f (.binary op left r) ts2
        | .error er => .error er
      else .ok (left, ts)
    | [] => .ok (left, ts)

end

/-- The `^[A-Za-z_]\w*$` test on a declaration's name token
(flux.js line 120). -/
def matchesIdent (s : String) : Bool :=
  match s.data with
  | [] => false
  | c :: rest => isIdentStart c && rest.all isWordChar

/-- The expression-statement arm of `parseStatement` (flux.js lines
125-129): an expression followed by a mandatory `;`. -/
def parseExprStmt (f : Nat) (ts : List String) : Except String (Node × List String) :=
  match parseExpression f ts with
  | .ok (e, ts1) =>
    match ts1 with
    | ";" :: ts2 => .ok (.expr_stmt e, ts2)
    | tk :: _ => .error (expectedMsg ";" tk)
    | [] => .error (expectedMsg ";" "undefined")
  | .error er => .error er

/-- `parseStatement` (flux.js lines 116-130).  On `let`/`const`/`var` the
name token is validated against `^[A-Za-z_]\w*$` *before* the `=` and the
initializer are looked at; a failing name throws `Invalid variable name`.
With no name token at all, JS reads `undefined` and crashes inside
`name.match` with a TypeError, which the model renders as that error
message. -/
def parseStatement : Nat → List String → Except String (Node × List String)
  | 0, _ => .error "out of fuel"
  | f + 1, ts =>
    match ts with
    | kw :: ts1 =>
      if kw = "let" || kw = "const" || kw = "var" then
        match ts1 with
        | name :: ts2 =>
          if matchesIdent name then
            match ts2 with
            | "=" :: ts3 =>
              match parseExpression f ts3 with
              | .ok (e, ts4) =>
                match ts4 with
                | ";" :: ts5 => .ok (.var_decl kw name e, ts5)
                | tk :: _ => .error (expectedMsg ";" tk)
                | [] => .error (expectedMsg ";" "undefined")
              | .error er => .error er
            | tk :: _ => .error (expectedMsg "=" tk)
            | [] => .error (expectedMsg "=" "undefined")
          else .error "Invalid variable name"
        | [] => .error "TypeError: name.match is not applicable (name is undefined)"
      else parseExprStmt f ts
    | [] => parseExprStmt f ts

/-- The `while (!isAtEnd())` statement loop (flux.js lines 132-136). -/
def parseProgram : Nat → List String → Except String (List Node)
  | 0, _ => .error "out of fuel"
  | _ + 1, [] => .ok []
  | f + 1, ts =>
    match parseStatement f ts with
    | .ok (s, ts1) =>
      match parseProgram f ts1 with
      | .ok rest => .ok (s :: rest)
      | .error er => .error er
    | .error er => .error er

/-- `parser(tokens)`.  Every parsing call either consumes a token or moves
to a structurally smaller task, so the supplied fuel is amply sufficient
for any token list; the concrete evaluations below confirm it on every
program a claim mentions. -/
def parser (tokens : List String) : Except String (List Node) :=
  parseProgram (4 * tokens.length + 16) tokens

example :
    parser ["1", "+", "2", "*", "3", ";"] =
      .ok [.expr_stmt (.binary "*" (.binary "+" (.number 1) (.number 2)) (.number 3))] := by
  rfl
example :
    parser (lexer "let x = 1; x();") =
      .ok [.var_decl "let" "x" (.number 1), .expr_stmt (.call (.var "x") [])] := by
  rfl
example : parser ["let", "1", "=", "2", ";"] = .error "Invalid variable name" := by rfl

/-! ## Runtime values and interpreter state (flux.js lines 16-37, 138-191)

Runtime values are JS primitives plus the pre-installed built-in functions
(the only callables the language can produce — there is no user-defined
function syntax).  A built-in is identified by its registry name; JS
compares function values by object identity, and distinct registry entries
are distinct objects, so name equality models `===` on them.  `undefined` is JS
`undefined` (the result of `console.log`, of reading a missing property,
and the model's marker for out-of-model `NaN`/`Infinity` results). -/

inductive Value where
  | num (q : JNum)
  | str (s : String)
  | bool (b : Bool)
  | null
  | undefined
  | builtin (name : String)
deriving DecidableEq

/-- JS `===`: equal types and equal values, no coercion.  (JS `NaN === NaN`
is false; `NaN` is outside the model.) -/
def strictEq : Value → Value → Bool
  | .num a, .num b => a.valEq b
  | .str a, .str b => a == b
  | .bool a, .bool b => a == b
  | .null, .null => true
  | .undefined, .undefined => true
  | .builtin a, .builtin b => a == b
  | _, _ => false

/-- The interpreter's mutable environment `this.env`: a flat name-to-value
map.  `envSet` prepends and `envLookup` takes the first hit, so a later
binding of a name overwrites the earlier one, as assignment to a JS object
property does. -/
abbrev Env := List (String × Value)

def envLookup : Env → String → Option Value
  | [], _ => none
  | (n, v) :: rest, name => if n = name then some v else envLookup rest name

def envSet (e : Env) (n : String) (v : Value) : Env := (n, v) :: e

/-- The observable interpreter state: the environment plus the console
lines `print` has produced (each line is the argument list of one
`console.log` call).  JS state survives a thrown exception, so evaluation
returns an `St` alongside errors too. -/
structure St where
  env : Env
  out : List (List Value)
deriving DecidableEq

/-! ### Coercions shared by the operators and built-ins -/

/-- JS `Number(string)` on the modelled string shapes: surrounding
whitespace is trimmed, the empty string is `0`, an optionally signed
`\d+(\.\d+)?` literal is its value; every other string (hex, exponent,
`Infinity`, junk) coerces to `NaN`, which is outside the model (`none`). -/
def strToNumOpt (s : String) : Option JNum :=
  let cs := ((s.data.dropWhile Char.isWhitespace).reverse.dropWhile Char.isWhitespace).reverse
  match cs with
  | [] => some 0
  | '-' :: rest =>
    if isNumericTok (String.mk rest) then some ((0 : JNum).sub (tokToNum rest)) else none
  | '+' :: rest => if isNumericTok (String.mk rest) then some (tokToNum rest) else none
  | _ => if isNumericTok (String.mk cs) then some (tokToNum cs) else none

/-- JS `ToNumber` on the value domain; `none` is `NaN` (outside the model).
A function object also coerces to `NaN`. -/
def toNumberV : Value → Option JNum
  | .num q => some q
  | .bool b => some (if b then 1 else 0)
  | .null => some 0
  | .str s => strToNumOpt s
  | .undefined => none
  | .builtin _ => none

/-- JS `ToString` on the value domain.  Integers print exactly; the float
formatting of a non-integer number and the source text of a function are
outside the model and get marker texts (no claim reaches them). -/
def jsDisplay : Value → String
  | .num q => if q.isInt then toString q.trunc else "[non-integer number]"
  | .str s => s
  | .bool b => if b then "true" else "false"
  | .null => "null"
  | .undefined => "undefined"
  | .builtin n => "[function " ++ n ++ "]"

/-- JS `typeof`. -/
def typeofV : Value → String
  | .num _ => "number"
  | .str _ => "string"
  | .bool _ => "boolean"
  | .null => "object"
  | .undefined => "undefined"
  | .builtin _ => "function"

/-! ### The binary operators (`Interpreter.eval`, `binary` case,
flux.js lines 156-167) -/

/-- A numeric binary operator under JS coercion; a `NaN` operand (and so a
`NaN` result) is outside the model and becomes `undefined`. -/
def numArith (f : JNum → JNum → JNum) (l r : Value) : Value :=
  match toNumberV l, toNumberV r with
  | some a, some b => .num (f a b)
  | _, _ => .undefined

/-- JS `/`: division by zero gives `Infinity`/`NaN`, outside the model. -/
def jsDiv (l r : Value) : Value :=
  match toNumberV l, toNumberV r with
  | some a, some b => if b.isZero then .undefined else .num (a.div b)
  | _, _ => .undefined

/-- JS `+`: string concatenation when either operand is a string, otherwise
numeric addition.  A function operand would be stringified via its source
text, outside the model. -/
def jsAdd (l r : Value) : Value :=
  match l, r with
  | .builtin _, _ => .undefined
  | _, .builtin _ => .undefined
  | .str a, b => .str (a ++ jsDisplay b)
  | a, .str b => .str (jsDisplay a ++ b)
  | a, b => numArith (fun x y => x.add y) a b

/-- The `switch (node.operator)` of the `binary` case: `+ - * /` as above,
`==`/`!=` as strict (`===`) equality, and any other operator string throws
`Unsupported operator`. -/
def evalBinOp (op : String) (l r : Value) : Except String Value :=
  if op = "+" then .ok (jsAdd l r)
  else if op = "-" then .ok (numArith (fun a b => a.sub b) l r)
  else if op = "*" then .ok (numArith (fun a b => a.mul b) l r)
  else if op = "/" then .ok (jsDiv l r)
  else if op = "==" then .ok (.bool (strictEq l r))
  else if op = "!=" then .ok (.bool (!strictEq l r))
  else .error ("Unsupported operator " ++ op)

/-! ### The built-in registry (flux.js lines 16-37) -/

/-- `parseInt` on a string: trim, optional sign, then a leading digit run;
no digits means `NaN` (outside the model). -/
def parseIntStr (s : String) : Value :=
  let cs := s.data.dropWhile Char.isWhitespace
  match cs with
  | '-' :: rest =>
    let ds := rest.takeWhile Char.isDigit
    if ds.isEmpty then .undefined else .num ⟨-Int.ofNat (digitsVal ds), 1⟩
  | '+' :: rest =>
    let ds := rest.takeWhile Char.isDigit
    if ds.isEmpty then .undefined else .num ⟨Int.ofNat (digitsVal ds), 1⟩
  | _ =>
    let ds := cs.takeWhile Char.isDigit
    if ds.isEmpty then .undefined else .num ⟨Int.ofNat (digitsVal ds), 1⟩

/-- `parseFloat` on a string: trim, optional sign, then a leading
`\d+(\.\d+)?` prefix (`tokToNum` reads exactly that prefix). -/
def parseFloatStr (s : String) : Value :=
  let cs := s.data.dropWhile Char.isWhitespace
  match cs with
  | '-' :: rest =>
    if (rest.takeWhile Char.isDigit).isEmpty then .undefined
    else .num ((0 : JNum).sub (tokToNum rest))
  | '+' :: rest =>
    if (rest.takeWhile Char.isDigit).isEmpty then .undefined else .num (tokToNum rest)
  | _ =>
    if (cs.takeWhile Char.isDigit).isEmpty then .undefined else .num (tokToNum cs)

/-- `String.prototype.slice(start, end)` with JS index conversion: truncate
to an integer (`NaN` → 0), negative indices count from the end, an
`undefined` end means the string's length. -/
def jsSliceStr (s : String) (a b : Value) : String :=
  let len : Int := s.length
  let toIdx : Value → Int := fun v =>
    match toNumberV v with
    | some q => q.trunc
    | none => 0
  let norm : Int → Int := fun i => if i < 0 then max (len + i) 0 else min i len
  let stN := (norm (toIdx a)).toNat
  let enN := (norm (match b with | .undefined => len | v => toIdx v)).toNat
  String.mk ((s.data.drop stN).take (enN - stN))

/-- The pure built-ins of `builtInFunctions`.  A missing argument is JS
`undefined`; extra arguments are ignored, as in the source arrow functions.
Built-ins whose JS behavior leaves the model (float results,
nondeterminism, the blocking prompt) return marker values, noted case by
case; no claim depends on those cases. -/
def applyPure (name : String) (args : List Value) : Except String Value :=
  let a0 := args.headD Value.undefined
  let a1 := args.getD 1 Value.undefined
  let a2 := args.getD 2 Value.undefined
  if name = "len" then
    -- `arg => arg.length`
    match a0 with
    | .str s => .ok (.num ⟨Int.ofNat s.length, 1⟩)
    | .num _ | .bool _ => .ok .undefined      -- no `length` property: undefined
    | .builtin _ => .ok .undefined            -- a function's arity; outside the model
    | .null | .undefined => .error "TypeError: cannot read length of null or undefined"
  else if name = "sqrt" then
    match toNumberV a0 with
    | some q => if q.isNeg then .ok .undefined else .ok (.num q.sqrtJ)
    | none => .ok .undefined                  -- NaN, outside the model
  else if name = "pow" then
    match toNumberV a0, toNumberV a1 with
    | some a, some b =>
      if b.isInt ∧ ¬b.isNeg then .ok (.num (a.powNat b.trunc.toNat))
      else .ok .undefined                     -- fractional or negative exponent: float result
    | _, _ => .ok .undefined
  else if name = "abs" then
    match toNumberV a0 with
    | some q => .ok (.num q.absJ)
    | none => .ok .undefined
  else if name = "int" || name = "parseInt" then
    -- `arg => parseInt(arg, 10)`
    match a0 with
    | .num q => .ok (.num ⟨q.trunc, 1⟩)
    | .str s => .ok (parseIntStr s)
    | _ => .ok .undefined                     -- "true"/"null"/… parse to NaN
  else if name = "float" || name = "parseFloat" then
    match a0 with
    | .num q => .ok (.num q)
    | .str s => .ok (parseFloatStr s)
    | _ => .ok .undefined
  else if name = "str" then
    .ok (.str (jsDisplay a0))
  else if name = "toString" then
    match a0 with
    | .null | .undefined => .error "TypeError: toString of null or undefined"
    | v => .ok (.str (jsDisplay v))
  else if name = "upper" then
    -- `str => str.toUpperCase()` (ASCII case mapping)
    match a0 with
    | .str s => .ok (.str (String.mk (s.data.map Char.toUpper)))
    | _ => .error "TypeError: toUpperCase is not a function"
  else if name = "lower" then
    match a0 with
    | .str s => .ok (.str (String.mk (s.data.map Char.toLower)))
    | _ => .error "TypeError: toLowerCase is not a function"
  else if name = "random" then
    .ok (.num 0)                          -- nondeterministic in JS; outside the model
  else if name = "input" then
    .ok .null                             -- blocking browser prompt; outside the model
  else if name = "type" then
    .ok (.str (typeofV a0))
  else if name = "round" then
    -- `Math.round(x)` = `floor(x + 1/2)`
    match toNumberV a0 with
    | some q => .ok (.num ⟨(q.add ⟨1, 2⟩).floorI, 1⟩)
    | none => .ok .undefined
  else if name = "isNaN" then
    .ok (.bool (toNumberV a0).isNone)
  else if name = "slice" then
    match a0 with
    | .str s => .ok (.str (jsSliceStr s a1 a2))
    | _ => .error "TypeError: slice is not a function"
  else if name = "concat" then
    match a0 with
    | .str s => .ok (.str (s ++ jsDisplay a1))
    | _ => .error "TypeError: concat is not a function"
  else .error ("Undefined builtin " ++ name)  -- unreachable: every registry name is handled

/-- Invoke a built-in: `print` writes its argument list to the console and
returns `undefined`; every other registry entry is pure. -/
def applyBuiltin (name : String) (args : List Value) (out : List (List Value)) :
    Except String Value × List (List Value) :=
  if name = "print" then (.ok .undefined, out ++ [args])
  else (applyPure name args, out)

/-- The registry names, in the source object's insertion order (the order
`for … in` installs them; lookup is name-based, so only the set matters). -/
def builtinNames : List String :=
  ["print", "len", "sqrt", "pow", "abs", "int", "float", "str", "upper", "lower",
   "random", "input", "type", "round", "toString", "parseInt", "parseFloat",
   "isNaN", "slice", "concat"]

/-- The interpreter state right after `executeFlux` installs the built-ins
into a fresh environment (flux.js lines 183-186). -/
def initSt : St := ⟨builtinNames.map (fun n => (n, Value.builtin n)), []⟩

/-! ## The evaluator `Interpreter.eval` (flux.js lines 143-177)

Each `case` of the JS `switch` becomes a match arm; `throw` is
`Except.error` carrying the message, and the state present at the throw is
returned with it.  The `default` case throws `"Unknown node type " +
node.type`; the only parser-produced tag without a case of its own is
`keyword`, so that is the node kind the arm rejects.  Fuel only bounds the
recursion depth; the wrappers below always pass more than the depth of the
tree being evaluated, and the general theorems quantify over it. -/

mutual

def evalNodeF : Nat → Node → St → Except String Value × St
  | 0, _, st => (.error "out of fuel", st)
  | f + 1, n, st =>
    match n with
    | .number v => (.ok (.num v), st)
    | .string v => (.ok (.str v), st)
    | .literal v => (.ok (match v with | some b => .bool b | none => .null), st)
    | .var name =>
      -- `if (node.name in this.env) … else throw`
      match envLookup st.env name with
      | some v => (.ok v, st)
      | none => (.error ("Undefined variable '" ++ name ++ "'"), st)
    | .call callee args =>
      -- the callee is evaluated and checked *before* any argument
      match evalNodeF f callee st with
      | (.ok v, st1) =>
        match v with
        | .builtin b =>
          match evalArgsF f args st1 with
          | (.ok vs, st2) =>
            let (r, out2) := applyBuiltin b vs st2.out
            (r, ⟨st2.env, out2⟩)
          | (.error er, st2) => (.error er, st2)
        | _ => (.error "Call of non-function", st1)
      | (.error er, st1) => (.error er, st1)
    | .binary op l r =>
      match evalNodeF f l st with
      | (.ok lv, st1) =>
        match evalNodeF f r st1 with
        | (.ok rv, st2) => (evalBinOp op lv rv, st2)
        | (.error er, st2) => (.error er, st2)
      | (.error er, st1) => (.error er, st1)
    | .var_decl _ name e =>
      -- evaluate the initializer, then (re)bind the name; the declared
      -- kind (`let`/`const`/`var`) is never consulted
      match evalNodeF f e st with
      | (.ok v, st1) => (.ok .null, ⟨envSet st1.env name v, st1.out⟩)
      | (.error er, st1) => (.error er, st1)
    | .expr_stmt e => evalNodeF f e st
    | .keyword _ => (.error "Unknown node type keyword", st)

/-- `node.arguments.map(arg => this.eval(arg))`: left to right, aborting at
the first thrown error. -/
def evalArgsF : Nat → List Node → St → Except String (List Value) × St
  | 0, _, st => (.error "out of fuel", st)
  | _ + 1, [], st => (.ok [], st)
  | f + 1, n :: rest, st =>
    match evalNodeF f n st with
    | (.ok v, st1) =>
      match evalArgsF f rest st1 with
      | (.ok vs, st2) => (.ok (v :: vs), st2)
      | (.error er, st2) => (.error er, st2)
    | (.error er, st1) => (.error er, st1)

end

/-- The statement loop of `executeFlux` (flux.js lines 188-190): evaluate
each statement in order, stopping at the first thrown error; statement
values are discarded. -/
def runStmts (fuel : Nat) : List Node → St → Except String Unit × St
  | [], st => (.ok (), st)
  | s :: rest, st =>
    match evalNodeF fuel s st with
    | (.ok _, st1) => runStmts fuel rest st1
    | (.error er, st1) => (.error er, st1)

/-- `executeFlux(code)` (flux.js lines 179-191), with the final state made
observable.  A lex/parse error is thrown before the interpreter is even
constructed, so the state reported for it is the freshly seeded one.  The
evaluation fuel `code.length + 1` exceeds the depth of any tree parsed from
`code` (every node consumes at least one token, every token at least one
character). -/
def executeFluxSt (code : String) : Except String Unit × St :=
  match parser (lexer code) with
  | .ok stmts => runStmts (code.length + 1) stmts initSt
  | .error er => (.error er, initSt)

/-- The value of a one-statement source: lex, parse, evaluate in the seeded
environment, and report the statement's own value (which `executeFlux`
computes and discards). -/
def runSourceVal (code : String) : Except String Value :=
  match parser (lexer code) with
  | .ok [s] => (evalNodeF (code.length + 1) s initSt).1
  | .ok _ => .error "not a single statement"
  | .error er => .error er

deriving instance DecidableEq for Except

example : runSourceVal "1+2*3;" = .ok (.num 9) := by decide
example : runSourceVal "len(\"abc\");" = .ok (.num 3) := by decide
example : runSourceVal "upper(\"ab\");" = .ok (.str "AB") := by decide
example : runSourceVal "sqrt(9);" = .ok (.num 3) := by decide
example : (executeFluxSt "let x = 1; x();").1 = .error "Call of non-function" := by decide
example : envLookup (executeFluxSt "let x = 1; x();").2.env "x" = some (.num 1) := by decide
example : runSourceVal "print(1);" = .ok .undefined := by decide
example : (executeFluxSt "print(1);").2.out = [[.num 1]] := by decide

/-! ## Claims -/

/-- C1, counterexample.  The claim says an input containing a character
that matches none of the token alternatives makes `tokenize` halt with an
unrecognized-token error, the caller never receiving a partial token
sequence.  On `"a@b"` the character `@` matches no alternative, yet the
lexer returns the token sequence of the recognized parts — it has no error
outcome at all: `exec` simply searches past the unmatched character. -/
theorem lexerC1counterexample : lexer "a@b" = ["a", "b"] := by decide

/-- C1, amended.  A character matching none of the alternatives is
silently skipped — wherever it occurs in the remaining input — and the
scan continues; the lexer is total and never signals an error (its JS body
contains no throw).  `@` and `#` are two such characters. -/
theorem lexerSkipsUnrecognized :
    ∀ (f : Nat) (cs : List Char),
      lexTokensF (f + 1) ('@' :: cs) = lexTokensF f cs
      ∧ lexTokensF (f + 1) ('#' :: cs) = lexTokensF f cs
      ∧ lexer "let x @ = 1;" = ["let", "x", "=", "1", ";"] :=
  fun _ _ => ⟨rfl, rfl, by decide⟩

/-- C2, counterexample.  The claim says each two-character operator
spelling, `==` among them, is emitted as a single token.  But in the token
regex the single-character class `[+\-*/=();,{}<>]` precedes the
two-character alternatives, and regex alternation is ordered, so at `==`
the lexer emits `=` twice. -/
theorem lexerC2counterexample : lexer "a == b" = ["a", "=", "=", "b"] := by decide

/-- C2, amended.  Of the six two-character spellings, exactly those whose
first character is *not* in the single-character class — `!=`, `&&`, `||`
— are emitted as single tokens; `==`, `<=` and `>=` are split into their
single-character prefix followed by `=`, wherever they occur at a token
boundary in the input. -/
theorem lexerTwoCharOperators :
    ∀ (f : Nat) (cs : List Char),
      lexTokensF (f + 1) ('!' :: '=' :: cs) = "!=" :: lexTokensF f cs
      ∧ lexTokensF (f + 1) ('&' :: '&' :: cs) = "&&" :: lexTokensF f cs
      ∧ lexTokensF (f + 1) ('|' :: '|' :: cs) = "||" :: lexTokensF f cs
      ∧ lexTokensF (f + 2) ('=' :: '=' :: cs) = "=" :: "=" :: lexTokensF f cs
      ∧ lexTokensF (f + 2) ('<' :: '=' :: cs) = "<" :: "=" :: lexTokensF f cs
      ∧ lexTokensF (f + 2) ('>' :: '=' :: cs) = ">" :: "=" :: lexTokensF f cs
      ∧ lexer "a != b && c || d" = ["a", "!=", "b", "&&", "c", "||", "d"]
      ∧ lexer "a <= b >= c" = ["a", "<", "=", "b", ">", "=", "c"] :=
  fun _ _ => ⟨rfl, rfl, rfl, rfl, rfl, rfl, by decide, by decide⟩

/-- C3.  Tokenizing `"1+2*3;"` yields exactly `["1","+","2","*","3",";"]`;
the parser groups the single flat operator tier left-to-right, producing
`(1+2)*3`; and evaluating the expression statement yields `9`, not the `7`
of standard precedence. -/
theorem flatPrecedenceExample :
    lexer "1+2*3;" = ["1", "+", "2", "*", "3", ";"]
    ∧ parser ["1", "+", "2", "*", "3", ";"]
        = .ok [.expr_stmt (.binary "*" (.binary "+" (.number 1) (.number 2)) (.number 3))]
    ∧ runSourceVal "1+2*3;" = .ok (.num 9) :=
  ⟨by decide, by rfl, by decide⟩

/-- C4.  If the initializer evaluates to `v`, the declaration statement
(under any declared kind — the kind argument is universally quantified, so
`let`, `const` and `var` behave identically) succeeds, binds the name to
`v` on top of whatever binding the name may already have, and a subsequent
reference to the name evaluates to exactly `v`.  No hypothesis restricts
the prior environment, so re-declaring an already-bound name succeeds and
overwrites. -/
theorem varDeclBindsAndReads :
    ∀ (kind name : String) (e : Node) (f : Nat) (st : St) (v : Value) (st' : St),
      evalNodeF f e st = (.ok v, st') →
      evalNodeF (f + 1) (.var_decl kind name e) st
          = (.ok .null, ⟨envSet st'.env name v, st'.out⟩)
      ∧ ∀ g, evalNodeF (g + 1) (.var name) ⟨envSet st'.env name v, st'.out⟩
          = (.ok v, ⟨envSet st'.env name v, st'.out⟩) := by
  intro kind name e f st v st' h
  constructor
  · simp only [evalNodeF, h]
  · intro g
    simp [evalNodeF, envLookup, envSet]

/-- Witness for C4: re-declaring `x` (kind `const`) over an existing
binding `x ↦ 5` succeeds, overwrites, and the reference reads back `7`. -/
theorem varDeclBindsAndReadsWitness :
    evalNodeF 2 (.var_decl "const" "x" (.number 7)) ⟨[("x", .num 5)], []⟩
        = (.ok .null, ⟨[("x", .num 7), ("x", .num 5)], []⟩)
    ∧ evalNodeF 1 (.var "x") ⟨[("x", .num 7), ("x", .num 5)], []⟩
        = (.ok (.num 7), ⟨[("x", .num 7), ("x", .num 5)], []⟩) := by
  have h := varDeclBindsAndReads "const" "x" (.number 7) 1 ⟨[("x", .num 5)], []⟩
    (.num 7) ⟨[("x", .num 5)], []⟩ rfl
  exact ⟨h.1, h.2 0⟩

/-- C5.  Evaluating a variable node whose name is absent from the
environment fails with the undefined-variable error naming the identifier,
and the returned state is exactly the input state — no mutation before or
after the failure.  The second conjunct runs the spec's example shape
`name + 1;` as a whole statement: the same error, the same untouched
state. -/
theorem undefinedVariableError :
    ∀ (name : String) (f : Nat) (st : St),
      envLookup st.env name = none →
      evalNodeF (f + 1) (.var name) st
          = (.error ("Undefined variable '" ++ name ++ "'"), st)
      ∧ evalNodeF (f + 3) (.expr_stmt (.binary "+" (.var name) (.number 1))) st
          = (.error ("Undefined variable '" ++ name ++ "'"), st) := by
  intro name f st h
  constructor
  · simp [evalNodeF, h]
  · simp [evalNodeF, h]

/-- Witness for C5: `unset` is not bound in the freshly seeded environment,
and `unset + 1;` fails with the error naming it, leaving the state as it
was. -/
theorem undefinedVariableErrorWitness :
    envLookup initSt.env "unset" = none
    ∧ evalNodeF 1 (.var "unset") initSt
        = (.error "Undefined variable 'unset'", initSt)
    ∧ evalNodeF 3 (.expr_stmt (.binary "+" (.var "unset") (.number 1))) initSt
        = (.error "Undefined variable 'unset'", initSt) := by
  have h := undefinedVariableError "unset" 0 initSt (by decide)
  exact ⟨by decide, h.1, h.2⟩

/-- C6.  Running `let x = 1; x();` end to end: the second statement fails
with the not-callable error (`Call of non-function`), yet the final state
still contains the first statement's binding `x ↦ 1` — and the seeded
built-ins — so the error aborts forward progress without rolling back
already-applied effects. -/
theorem callNonCallableKeepsPriorEffects :
    (executeFluxSt "let x = 1; x();").1 = .error "Call of non-function"
    ∧ envLookup (executeFluxSt "let x = 1; x();").2.env "x" = some (.num 1)
    ∧ envLookup (executeFluxSt "let x = 1; x();").2.env "print"
        = some (.builtin "print") :=
  ⟨by decide, by decide, by decide⟩

/-- C7.  When a declaration's name token fails `^[A-Za-z_]\w*$`, the parser
raises exactly `Invalid variable name`, whatever tokens follow the name —
the result does not depend on `rest` at all, so no token of the
initializer is consumed or even inspected. -/
theorem invalidNameErrorBeforeInitializer :
    ∀ (kw name : String) (rest : List String) (f : Nat),
      (kw = "let" ∨ kw = "const" ∨ kw = "var") →
      matchesIdent name = false →
      parseStatement (f + 1) (kw :: name :: rest) = .error "Invalid variable name" := by
  intro kw name rest f hkw hname
  rcases hkw with rfl | rfl | rfl <;> simp [parseStatement, hname]

/-- Witness for C7: `let 1 = 2;` fails with `Invalid variable name`. -/
theorem invalidNameErrorBeforeInitializerWitness :
    parseStatement 1 ["let", "1", "=", "2", ";"] = .error "Invalid variable name" :=
  invalidNameErrorBeforeInitializer "let" "1" ["=", "2", ";"] 0 (.inl rfl) (by decide)

/-- C8.  The built-in calls evaluate to the specified values:
`len("abc")` is `3`, `upper("ab")` is `"AB"`, `sqrt(9)` is `3` — each run
through the full lex-parse-evaluate pipeline in the seeded environment. -/
theorem builtinCallExamples :
    runSourceVal "len(\"abc\");" = .ok (.num 3)
    ∧ runSourceVal "upper(\"ab\");" = .ok (.str "AB")
    ∧ runSourceVal "sqrt(9);" = .ok (.num 3) :=
  ⟨by decide, by decide, by decide⟩

/-- Every reserved word is non-empty, non-numeric and unquoted, so
`parsePrimary`'s earlier branches cannot capture it. -/
theorem keyword_shape :
    ∀ w ∈ keywords,
      isNumericTok w = false ∧ w ≠ "" ∧ w.front ≠ quoteD ∧ w.front ≠ quoteS := by
  decide

/-- C9.  A reserved word other than `true`/`false`/`null` is parsed by
`parsePrimary` into a `keyword` node, and evaluating a `keyword` node
always raises the `Unknown node type keyword` error (the `switch`'s
`default` arm) — it never produces a value and is never silently
skipped. -/
theorem keywordNodeParsedAndRejected :
    ∀ (k : String) (ts : List String) (g : Nat) (st : St),
      isKeyword k = true → k ≠ "true" → k ≠ "false" → k ≠ "null" →
      parsePrimary (k :: ts) = .ok (.keyword k, ts)
      ∧ evalNodeF (g + 1) (.keyword k) st = (.error "Unknown node type keyword", st) := by
  intro k ts g st hk h1 h2 h3
  have hmem : k ∈ keywords := by
    unfold isKeyword List.contains at hk
    exact List.mem_of_elem_eq_true hk
  obtain ⟨hnum, hne, hd, hs⟩ := keyword_shape k hmem
  constructor
  · simp [parsePrimary, hnum, hne, hd, hs, hk, h1, h2, h3]
  · simp [evalNodeF]

/-- Witness for C9: the reserved word `if`. -/
theorem keywordNodeParsedAndRejectedWitness :
    parsePrimary ["if"] = .ok (.keyword "if", [])
    ∧ evalNodeF 1 (.keyword "if") initSt = (.error "Unknown node type keyword", initSt) :=
  keywordNodeParsedAndRejected "if" [] 0 initSt (by decide) (by decide) (by decide)
    (by decide)

/-- C10.  When the callee of a call evaluates to a non-callable value, the
call evaluates to the not-callable error with final state *exactly* the
post-callee state `st'` — the result does not mention `args`, so no
argument is evaluated: no argument's environment effect or `print` output
can occur. -/
theorem nonCallableCheckedBeforeArgs :
    ∀ (callee : Node) (args : List Node) (f : Nat) (st : St) (v : Value) (st' : St),
      evalNodeF f callee st = (.ok v, st') →
      (∀ b, v ≠ .builtin b) →
      evalNodeF (f + 1) (.call callee args) st = (.error "Call of non-function", st') := by
  intro callee args f st v st' h hv
  cases v with
  | builtin b => exact absurd rfl (hv b)
  | num q => simp only [evalNodeF, h]
  | str s => simp only [evalNodeF, h]
  | bool b => simp only [evalNodeF, h]
  | null => simp only [evalNodeF, h]
  | undefined => simp only [evalNodeF, h]

/-- Witness for C10: calling the number `1` with an argument list that
would print; the error state is the untouched initial state — in
particular its console output is still empty, so the argument's `print`
never ran. -/
theorem nonCallableCheckedBeforeArgsWitness :
    evalNodeF 2 (.call (.number 1) [.call (.var "print") [.string "hi"]]) initSt
        = (.error "Call of non-function", initSt) :=
  nonCallableCheckedBeforeArgs (.number 1) [.call (.var "print") [.string "hi"]] 1
    initSt (.num 1) initSt rfl (fun _ h => Value.noConfusion h)
